import Mathlib

/-!
Shallow embedding of the sandbox orchestration core of the Claudable
repository (apps/api/app/services/vibekit_service.py,
apps/api/app/services/cli/adapters/claude_code_sandbox.py,
apps/api/app/services/project/sandbox_initializer.py,
apps/api/app/api/projects/sandbox_crud.py), together with proofs about the
behaviour those files implement.
-/

namespace Claudable

/-! ## VibeKit service objects and the module-level service cache
(vibekit_service.py). -/

/-- One `VibeKitService` object (vibekit_service.py, class `VibeKitService`):
it stores its project id and the mutable `sandbox_id` / `session_id` fields.
The constructor sets both mutable fields to `None`. -/
structure VKService where
  project_id : String
  sandbox_id : Option String
  session_id : Option String
  deriving DecidableEq, Repr

/-- The module-level dict `_vibekit_services` (vibekit_service.py line 214),
keyed by project id. -/
abbrev Registry := List (String × VKService)

/-- Dict lookup in the service cache. -/
def lookupService : Registry → String → Option VKService
  | [], _ => none
  | kv :: rest, pid => if kv.fst = pid then some kv.snd else lookupService rest pid

/-- `get_vibekit_service` (vibekit_service.py lines 217-221): return the cached
service for the project, creating and caching a fresh `VibeKitService(project_id)`
on the first call. -/
def get_vibekit_service (r : Registry) (pid : String) : VKService × Registry :=
  match lookupService r pid with
  | some s => (s, r)
  | none => (⟨pid, none, none⟩, (pid, ⟨pid, none, none⟩) :: r)

/-- Mutation of the one service object cached for `pid` (in the Python code the
dict holds a reference, so assigning to a field of the service for one project
rewrites only that project's entry). -/
def updateService : Registry → String → (VKService → VKService) → Registry
  | [], _, _ => []
  | kv :: rest, pid, f =>
    (if kv.fst = pid then (kv.fst, f kv.snd) else kv) :: updateService rest pid f

/-- Well-formedness of the cache: every cached service carries the project id
it is keyed by (true of every state reachable through `get_vibekit_service`). -/
def RegistryWF (r : Registry) : Prop :=
  ∀ kv ∈ r, (Prod.snd kv).project_id = kv.fst

/-! ## The adapter's session mapping
(claude_code_sandbox.py, `session_mapping`, `get_session_id`, `cleanup_session`). -/

/-- The adapter's `self.session_mapping` dict, project id to provider session id. -/
abbrev SessionMap := List (String × String)

/-- `get_session_id` (claude_code_sandbox.py lines 487-489):
`self.session_mapping.get(project_id)`. -/
def get_session_id (m : SessionMap) (pid : String) : Option String :=
  (m.find? (fun kv => decide (kv.fst = pid))).map Prod.snd

/-- `cleanup_session` (claude_code_sandbox.py lines 491-501): delete the local
mapping entry if present, then attempt the remote sandbox cleanup; any remote
failure is caught and logged (second component), never re-raised.  The function
always returns normally. -/
def cleanup_session (m : SessionMap) (pid : String) (remoteFail : Option String) :
    SessionMap × Option String :=
  (m.filter (fun kv => decide (kv.fst ≠ pid)), remoteFail)

/-! ## Health probe and availability check
(vibekit_service.py `health_check`, claude_code_sandbox.py `check_availability`). -/

/-- Body of a bridge health response. -/
structure HealthBody where
  status : String
  message : Option String
  deriving DecidableEq, Repr

/-- Outcome of the underlying HTTP probe against the bridge health endpoint. -/
inductive ProbeOutcome where
  | ok200 (body : HealthBody)
  | non200 (text : String)
  | netFail (msg : String)
  deriving DecidableEq, Repr

/-- `health_check` (vibekit_service.py lines 201-210): a 200 response is
returned as-is; a non-200 response or a raised network error is converted to
a result dict with status "error".  Total: it never raises. -/
def health_check : ProbeOutcome → HealthBody
  | .ok200 b => b
  | .non200 t => ⟨"error", some t⟩
  | .netFail m => ⟨"error", some m⟩

/-- Result dict of `check_availability`. -/
structure AvailResult where
  available : Bool
  configured : Bool
  detail : String
  deriving DecidableEq, Repr

/-- `check_availability` (claude_code_sandbox.py lines 32-58): run the bridge
health probe through a throwaway service; report available exactly when the
probe body says status "ok"; everything inside is wrapped in a try/except that
converts any raised error into an available=false result, so the function is
total. -/
def check_availability (p : ProbeOutcome) : AvailResult :=
  let h := health_check p
  if h.status = "ok" then
    ⟨true, true, "VibeKit sandbox is ready"⟩
  else
    ⟨false, false, "VibeKit sandbox not available"⟩

/-! ## Project id resolution
(claude_code_sandbox.py `_extract_project_id` and lines 80-103). -/

/-- `_extract_project_id` (claude_code_sandbox.py lines 474-485): split the
project path on the separator; if a "projects" component occurs, return the
component after its first occurrence when in bounds, else None. -/
def extract_project_id (parts : List String) : Option String :=
  match parts.indexOf? "projects" with
  | some i => parts.get? (i + 1)
  | none => none

/-- The fallback `session_id.split('-')[0] if '-' in session_id else session_id`
(claude_code_sandbox.py lines 98 and 102). -/
def beforeDash (s : String) : String :=
  if s.data.contains '-' then String.mk (s.data.takeWhile (fun c => decide (c ≠ '-'))) else s

/-- Project id resolution in `execute_with_streaming` (claude_code_sandbox.py
lines 80-103).  Precedence: a truthy path-extracted id wins; otherwise the
database lookup by session id (`dbHit`, covering both the found and the
not-found/raised cases, which the code sends to the same fallback); otherwise
the session id prefix before the first dash.  With no session id at all the
fallback raises (`session_id.split` on None), modelled as `.error ()`. -/
def resolveProjectId (parts : List String) (sessionId : Option String)
    (dbHit : Option String) : Except Unit String :=
  let fb : Except Unit String :=
    match sessionId with
    | none => .error ()
    | some s =>
      match dbHit with
      | some q => .ok q
      | none => .ok (beforeDash s)
  match extract_project_id parts with
  | some p => if p = "" then fb else .ok p
  | none => fb

/-! ## Project records and the create endpoint
(sandbox_crud.py `create_sandbox_project`, lines 136-173). -/

/-- The sandbox-related columns of a `Project` row. -/
structure ProjectRec where
  id : String
  name : String
  status : String
  sandbox_id : Option String
  host_url : Option String
  deriving DecidableEq, Repr

/-- The project table. -/
abbrev ProjectDB := List ProjectRec

/-- The `db.query(...).filter(ProjectModel.id == project_id).first()` lookup. -/
def findProject (db : ProjectDB) (pid : String) : Option ProjectRec :=
  db.find? (fun p => decide (p.id = pid))

/-- `create_sandbox_project` (sandbox_crud.py lines 136-173): if a project row
with this id already exists, raise HTTPException 400; otherwise insert a fresh
row with status "initializing" and no sandbox handle, schedule the background
initialization, and return the new row. -/
def create_sandbox_project (db : ProjectDB) (pid name : String) :
    Except Nat (ProjectRec × ProjectDB) :=
  if (findProject db pid).isSome then .error 400
  else
    let p : ProjectRec := ⟨pid, name, "initializing", none, none⟩
    .ok (p, db ++ [p])

/-- The adapter's guarded provisioning (claude_code_sandbox.py lines 127 and
146, with the `self.sandbox_id` assignment of vibekit_service.py line 36):
`initialize_sandbox` is invoked only when the cached service has no sandbox id;
an existing handle is left untouched. -/
def ensureSandbox (s : VKService) (newId : String) : VKService :=
  if s.sandbox_id.isNone then { s with sandbox_id := some newId } else s

/-! ## The initial-prompt bootstrap command sequence
(claude_code_sandbox.py lines 226-293). -/

/-- Names of the bootstrap command steps run for an initial prompt, in source
order: the Bun PATH export (line 226), the four shell-profile appends (lines
229-232), the Bun version check (line 235), the my-app cleanup (line 239), the
template clone (line 246), the dependency install (line 252), the
filesystem-watch-limit tweak (line 258), the background Expo start (line 265),
the env-file write (line 287), and the git config/init/add/commit steps (lines
290-293). -/
inductive StepName where
  | bunPath | bashrc1 | bashrc2 | zshrc1 | zshrc2 | bunCheck | rmCleanup
  | cloneTemplate | bunInstall | watcherFix | expoStart
  | envFile | gitConfig | gitInit | gitAdd | gitCommit
  deriving DecidableEq, Repr

/-- The in-band success flag (the result dict's success field) that the remote
execution reports for each bootstrap step. -/
structure BootOutcomes where
  bunPath : Bool
  bashrc1 : Bool
  bashrc2 : Bool
  zshrc1 : Bool
  zshrc2 : Bool
  bunCheck : Bool
  rmCleanup : Bool
  cloneTemplate : Bool
  bunInstall : Bool
  watcherFix : Bool
  expoStart : Bool
  envFile : Bool
  gitConfig : Bool
  gitInit : Bool
  gitAdd : Bool
  gitCommit : Bool
  deriving DecidableEq, Repr

/-- The PATH/profile/version/cleanup steps preceding the template clone. -/
def preSteps : List StepName :=
  [.bunPath, .bashrc1, .bashrc2, .zshrc1, .zshrc2, .bunCheck, .rmCleanup]

/-- Control flow of the bootstrap sequence (claude_code_sandbox.py lines
226-293).  The PATH, profile, version-check and cleanup steps never bind
their results at all; the template clone's result is checked at line 247 and
a false success raises (line 248), aborting the sequence; likewise the
dependency install at lines 253-254; a false success of the watcher tweak is
checked at line 259 but only logged as a warning (line 260); the Expo start,
env-file and git steps never inspect their results either.  Returns the steps
issued and whether the sequence completed without raising. -/
def runBootstrap (o : BootOutcomes) : List StepName × Bool :=
  if !o.cloneTemplate then (preSteps ++ [.cloneTemplate], false)
  else if !o.bunInstall then (preSteps ++ [.cloneTemplate, .bunInstall], false)
  else (preSteps ++ [.cloneTemplate, .bunInstall, .watcherFix, .expoStart,
        .envFile, .gitConfig, .gitInit, .gitAdd, .gitCommit], true)

/-! ## Project initialization and the background lifecycle tasks
(sandbox_initializer.py, sandbox_crud.py). -/

/-- Outcome of each awaited step of one `initialize_project_sandbox` run. -/
structure InitEnv where
  provision : Except String String
  cdOk : Bool
  getHost : Except String String
  writeMetaOk : Bool
  deriving Repr

/-- The persisted local metadata record (sandbox_initializer.py lines 89-97). -/
structure MetaRec where
  project_id : String
  name : String
  sandbox_id : String
  host_url : String
  status : String
  rtype : String
  deriving DecidableEq, Repr

/-- The dict returned by a successful `initialize_project_sandbox`. -/
structure InitResult where
  project_id : String
  sandbox_id : String
  host_url : String
  status : String
  deriving DecidableEq, Repr

/-- `initialize_project_sandbox` (sandbox_initializer.py lines 17-70):
provision the sandbox, run the cd command, fetch the host url, then write the
local metadata file; any failure is caught, a best-effort remote cleanup is
attempted, and the error is re-raised.  Second component: the metadata file
left on disk, which exists only when every step up to and including the write
completed. -/
def initialize_project_sandbox (pid name : String) (e : InitEnv) :
    Except String InitResult × Option MetaRec :=
  match e.provision with
  | .error m => (.error m, none)
  | .ok sb =>
    if !e.cdOk then (.error "command transport failed", none)
    else
      match e.getHost with
      | .error m => (.error m, none)
      | .ok url =>
        if !e.writeMetaOk then (.error "metadata write failed", none)
        else (.ok ⟨pid, sb, url, "active"⟩, some ⟨pid, name, sb, url, "active", "sandbox"⟩)

/-- One Progress Relay message.  Every broadcast in sandbox_crud.py is a JSON
object whose type tag is the constant "project_status" and whose data carries
status, message and an optional host_url; the model keeps the data fields. -/
structure StatusMsg where
  status : String
  message : String
  host_url : Option String
  deriving DecidableEq, Repr

/-- A terminal progress message reports status "active" or "error". -/
def terminalStatus (m : StatusMsg) : Bool :=
  decide (m.status = "active") || decide (m.status = "error")

/-- Number of terminal progress messages in a broadcast list. -/
def countTerminalMsgs (l : List StatusMsg) : Nat :=
  (l.filter terminalStatus).length

/-- Environment of `initialize_sandbox_project_background` beyond the
initializer: the project row the background db session finds, and whether the
commit succeeds. -/
structure BgEnv where
  initEnv : InitEnv
  row : Option ProjectRec
  commitOk : Bool
  deriving Repr

/-- `initialize_sandbox_project_background` (sandbox_crud.py lines 75-133):
broadcast "initializing", run the initializer, update and commit the project
row on success, then broadcast exactly one of "active" (with the host url) or
"error"; a failure anywhere inside the try block reaches the except branch,
which broadcasts "error".  Returns the broadcast list and the final row. -/
def initialize_background (pid name : String) (e : BgEnv) :
    List StatusMsg × Option ProjectRec :=
  let start : StatusMsg := ⟨"initializing", "Initializing sandbox environment...", none⟩
  match initialize_project_sandbox pid name e.initEnv with
  | (.error m, _) => ([start, ⟨"error", m, none⟩], e.row)
  | (.ok r, _) =>
    match e.row with
    | none => ([start, ⟨"active", "Sandbox project ready!", some r.host_url⟩], none)
    | some p =>
      if e.commitOk then
        ([start, ⟨"active", "Sandbox project ready!", some r.host_url⟩],
         some { p with sandbox_id := some r.sandbox_id, status := "active",
                       host_url := some r.host_url })
      else ([start, ⟨"error", "commit failed", none⟩], some p)

/-- Outcome of each awaited step of `start_preview_sandbox`. -/
structure PreviewEnv where
  npmInstallOk : Bool
  npmRunDevOk : Bool
  getHost : Except String String
  deriving Repr

/-- The dict returned by a successful `start_preview_sandbox`. -/
structure PreviewResult where
  url : String
  status : String
  deriving DecidableEq, Repr

/-- `start_preview_sandbox` (sandbox_initializer.py lines 191-233), run as the
background task of the preview/start route (sandbox_crud.py line 335): npm
install, npm run dev, host lookup, re-raising on failure.  It never touches
the websocket manager, so its broadcast list is empty by construction. -/
def start_preview_sandbox (e : PreviewEnv) :
    Except String PreviewResult × List StatusMsg :=
  (if !e.npmInstallOk then .error "npm install transport failed"
   else if !e.npmRunDevOk then .error "npm run dev transport failed"
   else
     match e.getHost with
     | .error m => .error m
     | .ok url => .ok ⟨url, "running"⟩, [])

/-- `stop_preview_sandbox` (sandbox_initializer.py lines 236-262): attempt the
sandbox cleanup, catch any failure, return a success flag; no websocket
broadcast is made. -/
def stop_preview_sandbox (cleanupOk : Bool) : Bool × List StatusMsg :=
  (cleanupOk, [])

/-- `cleanup_project_sandbox` (sandbox_initializer.py lines 110-149), run as
the background task of the delete route (sandbox_crud.py line 381): sandbox
cleanup then local metadata removal, catching any failure; no websocket
broadcast is made. -/
def cleanup_project_sandbox (cleanupOk : Bool) (meta : Option MetaRec) :
    Bool × Option MetaRec × List StatusMsg :=
  if cleanupOk then (true, none, []) else (false, meta, [])

/-! ## The streaming generation protocol
(vibekit_service.py `generate_code`, claude_code_sandbox.py lines 60-472). -/

/-- Type tags of the provider chunks pushed by the bridge event stream. -/
inductive ChunkType where
  | update | tool_use | todo_list | code_generation | error | complete | other
  deriving DecidableEq, Repr

/-- One parsed chunk of the bridge event stream. -/
structure Chunk where
  ctype : ChunkType
  content : String
  err : String
  deriving DecidableEq, Repr

/-- `generate_code` (vibekit_service.py lines 48-94) in streaming mode: the
data objects parsed line by line; when the transport raises anywhere,
mid-stream included, the except block yields one final error chunk instead of
re-raising.  `received` are the chunks parsed before the failure point. -/
def generate_code (received : List Chunk) (transportFail : Option String) : List Chunk :=
  received ++ (match transportFail with
    | some m => [⟨.error, "", m⟩]
    | none => [])

/-- The kinds of Message the adapter yields, by message_type, with the
completion message distinguished from plain info messages by its completion
event_type. -/
inductive Ev where
  | info
  | chat
  | toolUse
  | todo
  | error
  | completion
  deriving DecidableEq, Repr

/-- A terminal event is a completion or an error message. -/
def isTerminalEv : Ev → Bool
  | .error => true
  | .completion => true
  | _ => false

/-- Number of terminal events in an emitted sequence. -/
def countTerminal (evs : List Ev) : Nat := (evs.filter isTerminalEv).length

/-- Events yielded for one chunk by the dispatch at claude_code_sandbox.py
lines 340-451: updates and tool uses with empty content are coalesced away;
todo_list and code_generation chunks always yield; error chunks yield an error
message; unknown types yield nothing.  Complete chunks are handled in
`genLoop` because of the session fetch they perform first. -/
def chunkEvents (c : Chunk) : List Ev :=
  match c.ctype with
  | .update => if c.content = "" then [] else [.chat]
  | .tool_use => if c.content = "" then [] else [.toolUse]
  | .todo_list => [.todo]
  | .code_generation => [.chat]
  | .error => [.error]
  | .complete => [.completion]
  | .other => []

/-- How an async generator run ends. -/
inductive Term where
  | normal | raised
  deriving DecidableEq, Repr

/-- The generation loop (claude_code_sandbox.py lines 335-472) over the chunks
delivered by `generate_code`.  A complete chunk first awaits
`vibekit.get_session()`, which raises on failure and kills the generator
before the completion message is yielded; the loop does not stop after error
or complete chunks. -/
def genLoop (gsOk : Bool) : List Chunk → List Ev × Term
  | [] => ([], .normal)
  | c :: rest =>
    match c.ctype with
    | .complete =>
      if !gsOk then ([], .raised)
      else
        let r := genLoop gsOk rest
        (.completion :: r.1, r.2)
    | _ =>
      let r := genLoop gsOk rest
      (chunkEvents c ++ r.1, r.2)

/-- Environment of one `execute_with_streaming` invocation. -/
structure ExecEnv where
  parts : List String
  sessionId : Option String
  dbHit : Option String
  serviceHasSandbox : Bool
  initOk : Bool
  setSessionOk : Bool
  isInitial : Bool
  boot : BootOutcomes
  getHostOk : Bool
  received : List Chunk
  transportFail : Option String
  getSessionOk : Bool

/-- `execute_with_streaming` (claude_code_sandbox.py lines 60-472): the yielded
Message kinds and how the generator terminates.  An unresolvable project id
yields one error message and returns; setup failures (sandbox provisioning at
line 146 when the service has no sandbox yet, session resumption at line 150)
are caught at line 163, yield one error message and return.  When
`is_initial_prompt` is false the function body ends right after setup, because
everything from line 183 to line 472 sits under the `if is_initial_prompt:`
test, so no generation events are produced at all.  On the initial-prompt path
the bootstrap info messages and the generation loop follow; bootstrap
clone/install failures (lines 248, 254) and a get_host failure (line 299)
raise out of the generator uncaught. -/
def execute_with_streaming (e : ExecEnv) : List Ev × Term :=
  match resolveProjectId e.parts e.sessionId e.dbHit with
  | .error _ => ([], .raised)
  | .ok pid =>
    if pid = "" then ([.error], .normal)
    else
      let initEvs : List Ev := if e.serviceHasSandbox then [] else [.info]
      if !e.serviceHasSandbox && !e.initOk then (initEvs ++ [.error], .normal)
      else if e.sessionId.isSome && !e.setSessionOk then (initEvs ++ [.error], .normal)
      else if !e.isInitial then (initEvs, .normal)
      else
        let evs1 := initEvs ++ [.info, .info]
        if !(runBootstrap e.boot).2 then (evs1, .raised)
        else
          let evs2 := evs1 ++ [.info]
          if !e.getHostOk then (evs2, .raised)
          else
            let evs3 := evs2 ++ [.info]
            let g := genLoop e.getSessionOk (generate_code e.received e.transportFail)
            (evs3 ++ g.1, g.2)

/-! ## The cooperative scheduler
(no lock, semaphore or queue object appears anywhere in the source; every
awaited bridge call is a suspension point at which the event loop may switch
between the tasks of the same project). -/

/-- One awaited bridge call of a lifecycle operation. -/
inductive PAct where
  | npmInstall | npmRunDev | getHost3000 | sandboxCleanup
  deriving DecidableEq, Repr

/-- The suspension-separated atomic actions of `start_preview_sandbox`
(sandbox_initializer.py lines 210, 214, 220). -/
def startPreviewActs : List PAct := [.npmInstall, .npmRunDev, .getHost3000]

/-- The suspension-separated atomic actions of `stop_preview_sandbox`
(sandbox_initializer.py line 255). -/
def stopPreviewActs : List PAct := [.sandboxCleanup]

/-- A scheduler configuration: the pending actions of two concurrently running
lifecycle operations on the same project, and the trace executed so far. -/
structure Cfg where
  pending1 : List PAct
  pending2 : List PAct
  trace : List PAct
  deriving DecidableEq, Repr

/-- One scheduling step of the cooperative event loop: whenever an operation
has pending work, the loop may run its next action, since nothing in the
source makes a task wait for the other. -/
inductive SchedStep : Cfg → Cfg → Prop
  | first (a : PAct) (p1 p2 tr : List PAct) :
      SchedStep ⟨a :: p1, p2, tr⟩ ⟨p1, p2, tr ++ [a]⟩
  | second (a : PAct) (p1 p2 tr : List PAct) :
      SchedStep ⟨p1, a :: p2, tr⟩ ⟨p1, p2, tr ++ [a]⟩

/-- Reachability under the scheduler. -/
inductive SchedReach : Cfg → Cfg → Prop
  | refl (c : Cfg) : SchedReach c c
  | tail {a b c : Cfg} : SchedReach a b → SchedStep b c → SchedReach a c

/-- A complete admissible trace of running a preview start and a preview stop
concurrently for the same project. -/
def AdmissibleTrace (t : List PAct) : Prop :=
  SchedReach ⟨startPreviewActs, stopPreviewActs, []⟩ ⟨[], [], t⟩

/-- Serial execution: one operation runs to completion before the other
starts. -/
def SerialTrace (t : List PAct) : Prop :=
  t = startPreviewActs ++ stopPreviewActs ∨ t = stopPreviewActs ++ startPreviewActs

/-- Interleavings of two action lists. -/
inductive Interleaving : List PAct → List PAct → List PAct → Prop
  | nil : Interleaving [] [] []
  | left (a : PAct) {xs ys zs : List PAct} :
      Interleaving xs ys zs → Interleaving (a :: xs) ys (a :: zs)
  | right (a : PAct) {xs ys zs : List PAct} :
      Interleaving xs ys zs → Interleaving xs (a :: ys) (a :: zs)

/-! ## Concrete instances used in the theorems below. -/

/-- A project table holding one project with a live sandbox handle. -/
def demoDB : ProjectDB :=
  [⟨"demo", "Demo", "active", some "sb_42", some "https://3000-demo.e2b.dev"⟩]

/-- Bootstrap outcomes with every step reporting success. -/
def bootAllOk : BootOutcomes :=
  ⟨true, true, true, true, true, true, true, true, true, true, true, true, true, true,
   true, true⟩

/-- Bootstrap outcomes where only the git-init step reports failure. -/
def bootGitInitFails : BootOutcomes := { bootAllOk with gitInit := false }

/-- A preview-start environment in which every step succeeds. -/
def previewEnvOk : PreviewEnv := ⟨true, true, .ok "https://3000-demo.e2b.dev"⟩

/-- An ordinary chat invocation: project path resolvable, sandbox already
initialized, session resumed, not an initial prompt, provider healthy. -/
def chatEnv : ExecEnv where
  parts := ["", "data", "projects", "p1", "repo"]
  sessionId := some "sess-1"
  dbHit := none
  serviceHasSandbox := true
  initOk := true
  setSessionOk := true
  isInitial := false
  boot := bootAllOk
  getHostOk := true
  received := []
  transportFail := none
  getSessionOk := true

/-- An initial-prompt invocation whose provider stream delivers two text
updates and then fails at the transport level. -/
def initialEnv : ExecEnv :=
  { chatEnv with
      isInitial := true
      serviceHasSandbox := false
      received := [⟨.update, "hello", ""⟩, ⟨.update, "world", ""⟩]
      transportFail := some "connection reset" }

/-! ## Theorems -/

/-- Looking a key up after filtering it out of an association list finds
nothing. -/
theorem find_after_erase (m : SessionMap) (pid : String) :
    (m.filter (fun kv => decide (kv.fst ≠ pid))).find?
      (fun kv => decide (kv.fst = pid)) = none := by
  induction m with
  | nil => rfl
  | cons kv rest ih =>
    by_cases h : kv.fst = pid
    · simp [List.filter_cons, h, ih]
    · simp [List.filter_cons, h, List.find?_cons, ih]

/-- Claim C6: for every project id, `cleanup_session` followed by
`get_session_id` for that project returns none, regardless of the remote
teardown outcome; `cleanup_session` is idempotent, always returns normally (it
is a total function on every remote outcome), and reports a remote failure in
its log component instead of re-raising it. -/
theorem cleanup_session_contract (m : SessionMap) (pid : String) (rf rf2 : Option String) :
    get_session_id (cleanup_session m pid rf).1 pid = none
    ∧ (cleanup_session (cleanup_session m pid rf).1 pid rf2).1 = (cleanup_session m pid rf).1
    ∧ (cleanup_session m pid rf).2 = rf := by
  refine ⟨?_, ?_, rfl⟩
  · simp [get_session_id, cleanup_session, find_after_erase]
  · simp [cleanup_session, List.filter_filter]

/-- Claim C8: `check_availability` never throws — it is a total function of
the probe outcome — and on any failing probe, network failure included, the
returned result has available = false; available is true exactly when the
probe returned a 200 body with status "ok". -/
theorem check_availability_safe (b : HealthBody) (t msg : String) :
    (check_availability (.netFail msg)).available = false
    ∧ (check_availability (.non200 t)).available = false
    ∧ ((check_availability (.ok200 b)).available = true ↔ b.status = "ok") := by
  refine ⟨rfl, rfl, ?_⟩
  by_cases h : b.status = "ok" <;> simp [check_availability, health_check, h]

/-- Claim C10: `execute_with_streaming` resolves the project identifier with a
fixed precedence — a (truthy) id extracted from the path component following
"projects" wins; otherwise the database lookup by the supplied session id;
otherwise the prefix of the session id before its first dash (the whole id
when it has no dash, which is what `beforeDash` computes). -/
theorem resolve_project_id_precedence (parts : List String) (s q p : String) :
    (extract_project_id parts = some p → p ≠ "" →
      ∀ sid dbHit, resolveProjectId parts sid dbHit = .ok p)
    ∧ (extract_project_id parts = none →
      resolveProjectId parts (some s) (some q) = .ok q)
    ∧ (extract_project_id parts = none →
      resolveProjectId parts (some s) none = .ok (beforeDash s)) := by
  refine ⟨?_, ?_, ?_⟩ <;> intro h
  · intro hp sid dbHit
    simp [resolveProjectId, h, hp]
  · simp [resolveProjectId, h]
  · simp [resolveProjectId, h]

/-- Claim C10 witness: the precedence at concrete inputs; in particular the
session-id fallback takes the prefix "sess" of "sess-1". -/
theorem resolve_project_id_precedence_witness :
    resolveProjectId ["", "home", "projects", "p7", "repo"] (some "x") none = .ok "p7"
    ∧ resolveProjectId ["", "tmp"] (some "sess-1") (some "proj9") = .ok "proj9"
    ∧ resolveProjectId ["", "tmp"] (some "sess-1") none = .ok "sess" := by
  refine ⟨?_, ?_, ?_⟩
  · exact (resolve_project_id_precedence ["", "home", "projects", "p7", "repo"] "x" "x"
      "p7").1 (by decide) (by decide) (some "x") none
  · exact (resolve_project_id_precedence ["", "tmp"] "sess-1" "proj9" "p7").2.1 (by decide)
  · have h := (resolve_project_id_precedence ["", "tmp"] "sess-1" "proj9" "p7").2.2
      (by decide)
    rw [show beforeDash "sess-1" = "sess" by decide] at h
    exact h

/-- A freshly cached service is found by the lookup that follows. -/
theorem lookupService_cons_self (r : Registry) (pid : String) (s : VKService) :
    lookupService ((pid, s) :: r) pid = some s := by
  simp [lookupService]

/-- A cached service found under a well-formed registry carries the key it is
cached under. -/
theorem lookupService_wf (r : Registry) (hwf : RegistryWF r) (pid : String)
    (s : VKService) (h : lookupService r pid = some s) : s.project_id = pid := by
  induction r with
  | nil => cases h
  | cons kv rest ih =>
    by_cases hk : kv.fst = pid
    · rw [lookupService, if_pos hk] at h
      cases h
      rw [hwf kv (List.mem_cons_self kv rest), hk]
    · rw [lookupService, if_neg hk] at h
      exact ih (fun x hx => hwf x (List.mem_cons_of_mem kv hx)) h

/-- `get_vibekit_service` preserves registry well-formedness. -/
theorem get_vibekit_service_wf (r : Registry) (hwf : RegistryWF r) (pid : String) :
    RegistryWF (get_vibekit_service r pid).2 := by
  unfold get_vibekit_service
  cases h : lookupService r pid with
  | some s => exact hwf
  | none =>
    intro kv hkv
    rcases List.mem_cons.mp hkv with hkv | hkv
    · subst hkv; rfl
    · exact hwf kv hkv

/-- The service returned for a project carries that project's id. -/
theorem get_vibekit_service_project_id (r : Registry) (hwf : RegistryWF r) (pid : String) :
    (get_vibekit_service r pid).1.project_id = pid := by
  unfold get_vibekit_service
  cases h : lookupService r pid with
  | some s => exact lookupService_wf r hwf pid s h
  | none => rfl

/-- Claim C9: repeated `get_vibekit_service` calls for the same project return
the identical cached service (the one created on the first call); the service
for a project carries that project's id, so services of distinct projects are
distinct objects; and mutating the service cached for one project leaves the
entry of every other project untouched, so no per-project state is shared. -/
theorem service_registry_per_project (r : Registry) (p1 p2 : String)
    (f : VKService → VKService) (hwf : RegistryWF r) (hne : p1 ≠ p2) :
    get_vibekit_service (get_vibekit_service r p1).2 p1 = get_vibekit_service r p1
    ∧ (get_vibekit_service r p1).1.project_id = p1
    ∧ (get_vibekit_service (get_vibekit_service r p1).2 p2).1 ≠ (get_vibekit_service r p1).1
    ∧ lookupService (updateService (get_vibekit_service r p1).2 p1 f) p2
        = lookupService (get_vibekit_service r p1).2 p2 := by
  have hwf1 : RegistryWF (get_vibekit_service r p1).2 := get_vibekit_service_wf r hwf p1
  refine ⟨?_, get_vibekit_service_project_id r hwf p1, ?_, ?_⟩
  · unfold get_vibekit_service
    cases h : lookupService r p1 with
    | some s => simp [h]
    | none => simp [h, lookupService_cons_self]
  · intro heq
    have ha := get_vibekit_service_project_id _ hwf1 p2
    have hb := get_vibekit_service_project_id r hwf p1
    rw [heq, hb] at ha
    exact hne ha
  · generalize (get_vibekit_service r p1).2 = r1
    induction r1 with
    | nil => rfl
    | cons kv rest ih =>
      by_cases hk : kv.fst = p1
      · have hk2 : ¬ kv.fst = p2 := by rw [hk]; exact hne
        rw [updateService, if_pos hk, lookupService, lookupService, if_neg hk2, if_neg hk2, ih]
      · rw [updateService, if_neg hk, lookupService, lookupService, ih]

/-- Claim C9 witness: the contract at the empty registry and two concrete
project ids. -/
theorem service_registry_per_project_witness :
    get_vibekit_service (get_vibekit_service [] "pa").2 "pa" = get_vibekit_service [] "pa"
    ∧ (get_vibekit_service [] "pa").1.project_id = "pa"
    ∧ (get_vibekit_service (get_vibekit_service [] "pa").2 "pb").1
        ≠ (get_vibekit_service [] "pa").1
    ∧ lookupService (updateService (get_vibekit_service [] "pa").2 "pa"
          (fun s => { s with sandbox_id := some "sb_1" })) "pb"
        = lookupService (get_vibekit_service [] "pa").2 "pb" :=
  service_registry_per_project [] "pa" "pb" (fun s => { s with sandbox_id := some "sb_1" })
    (by intro kv hkv; cases hkv) (by decide)

/-- Claim C2 counterexample: for the concrete table in which project "demo"
already has a live sandbox handle, the create endpoint answers HTTP 400 and
returns no project at all — it does not reuse and return the existing
handle. -/
theorem create_does_not_return_existing_handle :
    (findProject demoDB "demo").isSome = true
    ∧ create_sandbox_project demoDB "demo" "Demo" = .error 400
    ∧ ¬ ∃ pr db2, create_sandbox_project demoDB "demo" "Demo" = .ok (pr, db2) := by
  refine ⟨by decide, rfl, ?_⟩
  rintro ⟨pr, db2, h⟩
  rw [show create_sandbox_project demoDB "demo" "Demo" = .error 400 from rfl] at h
  cases h

/-- Claim C2 amended: a create request for a project id that already exists is
rejected with HTTP 400 (so no second sandbox is ever provisioned for it)
rather than returning the existing handle; a create can only succeed when no
row with that id exists; and the adapter provisions a sandbox only when the
cached service has no handle, leaving an existing handle untouched. -/
theorem create_idempotency_guard (db db2 : ProjectDB) (pid name newId : String)
    (pr : ProjectRec) (s : VKService) (sb : String) :
    ((findProject db pid).isSome → create_sandbox_project db pid name = .error 400)
    ∧ (create_sandbox_project db pid name = .ok (pr, db2) → findProject db pid = none)
    ∧ (s.sandbox_id = some sb → ensureSandbox s newId = s) := by
  refine ⟨?_, ?_, ?_⟩
  · intro h
    simp [create_sandbox_project, h]
  · intro h
    cases hf : findProject db pid with
    | none => rfl
    | some p => simp [create_sandbox_project, hf] at h
  · intro h
    simp [ensureSandbox, h]

/-- Claim C2 witness: the guard at concrete inputs — a duplicate create is
rejected, a create on the empty table succeeds only because the id is absent,
and a service holding handle "sb_42" is reused unchanged. -/
theorem create_idempotency_guard_witness :
    create_sandbox_project demoDB "demo" "Demo2" = .error 400
    ∧ findProject ([] : ProjectDB) "p9" = none
    ∧ ensureSandbox ⟨"demo", some "sb_42", none⟩ "sb_fresh" = ⟨"demo", some "sb_42", none⟩ := by
  refine ⟨?_, ?_, ?_⟩
  · exact (create_idempotency_guard demoDB [] "demo" "Demo2" "x"
      ⟨"demo", "Demo2", "initializing", none, none⟩ ⟨"demo", some "sb_42", none⟩ "sb_42").1
      (by decide)
  · exact (create_idempotency_guard [] [⟨"p9", "N", "initializing", none, none⟩] "p9" "N" "x"
      ⟨"p9", "N", "initializing", none, none⟩ ⟨"demo", some "sb_42", none⟩ "sb_42").2.1
      rfl
  · exact (create_idempotency_guard demoDB [] "demo" "Demo2" "sb_fresh"
      ⟨"demo", "Demo2", "initializing", none, none⟩ ⟨"demo", some "sb_42", none⟩ "sb_42").2.2
      rfl

/-- Claim C7 counterexample: in the initial-prompt bootstrap sequence, the
git-init step is not marked best-effort, yet its false success is not a hard
stop — the subsequent git add and git commit steps still execute and the
sequence completes normally. -/
theorem unchecked_step_failure_not_hard_stop :
    bootGitInitFails.gitInit = false
    ∧ (runBootstrap bootGitInitFails).2 = true
    ∧ StepName.gitAdd ∈ (runBootstrap bootGitInitFails).1
    ∧ StepName.gitCommit ∈ (runBootstrap bootGitInitFails).1 := by
  decide

/-- Claim C7 amended: only the template-clone and dependency-install steps are
hard stops of the bootstrap sequence (a false success of either raises and
aborts everything after it); the filesystem-watch-limit tweak failure is
tolerated and only logged; every other step's result is never inspected, so
its failure neither aborts the sequence nor is treated specially. -/
theorem bootstrap_abort_characterization (o : BootOutcomes) :
    ((runBootstrap o).2 = (o.cloneTemplate && o.bunInstall))
    ∧ (o.cloneTemplate = false → (runBootstrap o).1 = preSteps ++ [.cloneTemplate])
    ∧ (o.cloneTemplate = true → o.bunInstall = false →
        (runBootstrap o).1 = preSteps ++ [.cloneTemplate, .bunInstall])
    ∧ (o.cloneTemplate = true → o.bunInstall = true →
        (runBootstrap o).1 = preSteps ++ [.cloneTemplate, .bunInstall, .watcherFix,
          .expoStart, .envFile, .gitConfig, .gitInit, .gitAdd, .gitCommit])
    ∧ ((runBootstrap { o with watcherFix := false }).2
        = (o.cloneTemplate && o.bunInstall)) := by
  refine ⟨?_, ?_, ?_, ?_, ?_⟩
  · cases hc : o.cloneTemplate <;> cases hi : o.bunInstall <;>
      simp [runBootstrap, hc, hi]
  · intro hc
    simp [runBootstrap, hc]
  · intro hc hi
    simp [runBootstrap, hc, hi]
  · intro hc hi
    simp [runBootstrap, hc, hi]
  · cases hc : o.cloneTemplate <;> cases hi : o.bunInstall <;>
      simp [runBootstrap, hc, hi]

/-- Claim C7 witness: the characterization at concrete outcomes — a clone
failure stops right after the clone step, an all-success run issues the full
sequence, and a watcher failure alone still lets the run complete. -/
theorem bootstrap_abort_characterization_witness :
    (runBootstrap { bootAllOk with cloneTemplate := false }).1
        = preSteps ++ [.cloneTemplate]
    ∧ (runBootstrap bootAllOk).1
        = preSteps ++ [.cloneTemplate, .bunInstall, .watcherFix, .expoStart, .envFile,
            .gitConfig, .gitInit, .gitAdd, .gitCommit]
    ∧ (runBootstrap { bootAllOk with watcherFix := false }).2 = true :=
  ⟨(bootstrap_abort_characterization { bootAllOk with cloneTemplate := false }).2.1 rfl,
   (bootstrap_abort_characterization bootAllOk).2.2.2.1 rfl rfl,
   ((bootstrap_abort_characterization bootAllOk).2.2.2.2).trans (by decide)⟩

/-- Claim C4 counterexample: the accepted preview-start operation broadcasts
no progress message at all — even on a fully successful run its broadcast list
is empty, so it contains zero terminal messages rather than exactly one. -/
theorem preview_start_broadcasts_nothing :
    (start_preview_sandbox previewEnvOk).2 = []
    ∧ countTerminalMsgs (start_preview_sandbox previewEnvOk).2 = 0
    ∧ (start_preview_sandbox previewEnvOk).1
        = .ok ⟨"https://3000-demo.e2b.dev", "running"⟩ :=
  ⟨rfl, rfl, rfl⟩

/-- Claim C4 amended: only the create operation reports through the Progress
Relay — its background task broadcasts exactly one terminal message (status
"active" or "error"), preceded only by an "initializing" message, and the
terminal message is the last one; the preview-start, preview-stop and delete
operations broadcast nothing at all. -/
theorem terminal_broadcast_cases (pid name : String) (e : BgEnv) (pe : PreviewEnv)
    (stopOk cleanOk : Bool) (meta : Option MetaRec) :
    countTerminalMsgs (initialize_background pid name e).1 = 1
    ∧ (∃ m, (initialize_background pid name e).1.getLast? = some m
        ∧ terminalStatus m = true)
    ∧ (start_preview_sandbox pe).2 = []
    ∧ (stop_preview_sandbox stopOk).2 = []
    ∧ (cleanup_project_sandbox cleanOk meta).2.2 = [] := by
  refine ⟨?_, ?_, rfl, rfl, ?_⟩
  · rcases h : initialize_project_sandbox pid name e.initEnv with ⟨res, md⟩
    cases res with
    | error m => simp [initialize_background, h, countTerminalMsgs, terminalStatus]
    | ok r =>
      cases hr : e.row with
      | none => simp [initialize_background, h, hr, countTerminalMsgs, terminalStatus]
      | some p =>
        cases hc : e.commitOk <;>
          simp [initialize_background, h, hr, hc, countTerminalMsgs, terminalStatus]
  · rcases h : initialize_project_sandbox pid name e.initEnv with ⟨res, md⟩
    cases res with
    | error m =>
      exact ⟨⟨"error", m, none⟩, by simp [initialize_background, h], rfl⟩
    | ok r =>
      cases hr : e.row with
      | none =>
        exact ⟨⟨"active", "Sandbox project ready!", some r.host_url⟩,
          by simp [initialize_background, h, hr], rfl⟩
      | some p =>
        cases hc : e.commitOk
        · exact ⟨⟨"error", "commit failed", none⟩,
            by simp [initialize_background, h, hr, hc], rfl⟩
        · exact ⟨⟨"active", "Sandbox project ready!", some r.host_url⟩,
            by simp [initialize_background, h, hr, hc], rfl⟩
  · cases cleanOk <;> rfl

/-- Claim C5: if provisioning fails (the provisioning call raises, timeout
included), initialization reports the error, no metadata file is created and
the project row is left untouched (its sandbox handle stays absent); more
generally any failing initialization leaves no metadata and no row update and
ends in a terminal "error" broadcast, while a fully successful one writes the
metadata file, records the handle on the row, sets the row active and ends in
a terminal "active" broadcast. -/
theorem provisioning_failure_leaves_no_state (pid name m sb url : String)
    (e : BgEnv) (p : ProjectRec) :
    (e.initEnv.provision = .error m →
      (initialize_project_sandbox pid name e.initEnv).1 = .error m
      ∧ (initialize_project_sandbox pid name e.initEnv).2 = none
      ∧ (initialize_background pid name e).2 = e.row
      ∧ (initialize_background pid name e).1 =
          [⟨"initializing", "Initializing sandbox environment...", none⟩,
           ⟨"error", m, none⟩])
    ∧ (∀ msg, (initialize_project_sandbox pid name e.initEnv).1 = .error msg →
        (initialize_project_sandbox pid name e.initEnv).2 = none
        ∧ (initialize_background pid name e).2 = e.row
        ∧ (initialize_background pid name e).1.getLast? = some ⟨"error", msg, none⟩)
    ∧ (e.initEnv.provision = .ok sb → e.initEnv.cdOk = true →
        e.initEnv.getHost = .ok url → e.initEnv.writeMetaOk = true →
        e.row = some p → e.commitOk = true →
        (initialize_project_sandbox pid name e.initEnv).2
            = some ⟨pid, name, sb, url, "active", "sandbox"⟩
        ∧ (initialize_background pid name e).2
            = some { p with sandbox_id := some sb, status := "active", host_url := some url }
        ∧ (initialize_background pid name e).1.getLast?
            = some ⟨"active", "Sandbox project ready!", some url⟩) := by
  refine ⟨?_, ?_, ?_⟩
  · intro h
    have hi : initialize_project_sandbox pid name e.initEnv = (.error m, none) := by
      simp [initialize_project_sandbox, h]
    refine ⟨by rw [hi], by rw [hi], ?_, ?_⟩
    · simp [initialize_background, hi]
    · simp [initialize_background, hi]
  · intro msg hmsg
    have hnone : (initialize_project_sandbox pid name e.initEnv).2 = none := by
      rcases hp : e.initEnv.provision with mm | sbv
      · simp [initialize_project_sandbox, hp]
      · rcases hcd : e.initEnv.cdOk
        · simp [initialize_project_sandbox, hp, hcd]
        · rcases hgh : e.initEnv.getHost with mm2 | urlv
          · simp [initialize_project_sandbox, hp, hcd, hgh]
          · rcases hw : e.initEnv.writeMetaOk
            · simp [initialize_project_sandbox, hp, hcd, hgh, hw]
            · simp [initialize_project_sandbox, hp, hcd, hgh, hw] at hmsg
    have hi : initialize_project_sandbox pid name e.initEnv = (.error msg, none) := by
      rcases hpair : initialize_project_sandbox pid name e.initEnv with ⟨res, md⟩
      rw [hpair] at hmsg hnone
      simp only at hmsg hnone
      rw [hmsg, hnone]
    exact ⟨by rw [hi], by simp [initialize_background, hi],
      by simp [initialize_background, hi]⟩
  · intro hp hcd hgh hw hrow hcommit
    have hi : initialize_project_sandbox pid name e.initEnv
        = (.ok ⟨pid, sb, url, "active"⟩, some ⟨pid, name, sb, url, "active", "sandbox"⟩) := by
      simp [initialize_project_sandbox, hp, hcd, hgh, hw]
    refine ⟨by rw [hi], ?_, ?_⟩
    · simp [initialize_background, hi, hrow, hcommit]
    · simp [initialize_background, hi, hrow, hcommit]

/-- Claim C5 witness: the contract at concrete environments — a timed-out
provisioning call leaves no metadata and an unchanged row and ends in an error
broadcast, and a fully successful initialization writes everything. -/
theorem provisioning_failure_leaves_no_state_witness :
    (initialize_project_sandbox "p1" "Demo"
        ⟨.error "provisioning timed out", true, .ok "https://u", true⟩).2 = none
    ∧ (initialize_background "p1" "Demo"
        ⟨⟨.error "provisioning timed out", true, .ok "https://u", true⟩,
         some ⟨"p1", "Demo", "initializing", none, none⟩, true⟩).2
        = some ⟨"p1", "Demo", "initializing", none, none⟩
    ∧ (initialize_background "p1" "Demo"
        ⟨⟨.error "provisioning timed out", true, .ok "https://u", true⟩,
         some ⟨"p1", "Demo", "initializing", none, none⟩, true⟩).1 =
        [⟨"initializing", "Initializing sandbox environment...", none⟩,
         ⟨"error", "provisioning timed out", none⟩]
    ∧ (initialize_project_sandbox "p1" "Demo" ⟨.ok "sb_42", true, .ok "https://u", true⟩).2
        = some ⟨"p1", "Demo", "sb_42", "https://u", "active", "sandbox"⟩
    ∧ (initialize_background "p1" "Demo"
        ⟨⟨.ok "sb_42", true, .ok "https://u", true⟩,
         some ⟨"p1", "Demo", "initializing", none, none⟩, true⟩).2
        = some ⟨"p1", "Demo", "active", some "sb_42", some "https://u"⟩ := by
  have hfail := (provisioning_failure_leaves_no_state "p1" "Demo" "provisioning timed out"
    "sb_42" "https://u"
    ⟨⟨.error "provisioning timed out", true, .ok "https://u", true⟩,
     some ⟨"p1", "Demo", "initializing", none, none⟩, true⟩
    ⟨"p1", "Demo", "initializing", none, none⟩).1 rfl
  have hok := (provisioning_failure_leaves_no_state "p1" "Demo" "provisioning timed out"
    "sb_42" "https://u"
    ⟨⟨.ok "sb_42", true, .ok "https://u", true⟩,
     some ⟨"p1", "Demo", "initializing", none, none⟩, true⟩
    ⟨"p1", "Demo", "initializing", none, none⟩).2.2 rfl rfl rfl rfl rfl rfl
  exact ⟨hfail.2.1, hfail.2.2.1, hfail.2.2.2, hok.1, hok.2.1⟩

/-- Terminal events are counted additively across concatenation. -/
theorem countTerminal_append (a b : List Ev) :
    countTerminal (a ++ b) = countTerminal a + countTerminal b := by
  simp [countTerminal, List.filter_append]

/-- Chunks that are neither complete nor error produce no terminal events. -/
theorem chunkEvents_no_terminal (c : Chunk) (h1 : c.ctype ≠ .complete)
    (h2 : c.ctype ≠ .error) : countTerminal (chunkEvents c) = 0 := by
  cases hc : c.ctype <;>
    simp [chunkEvents, hc, countTerminal, isTerminalEv] <;>
    first
      | (exact absurd hc h1)
      | (exact absurd hc h2)
      | (split <;> simp [isTerminalEv])

/-- A generation loop over chunks without complete or error types yields no
terminal events and ends normally. -/
theorem genLoop_no_terminal (gsOk : Bool) (cs : List Chunk)
    (h : ∀ c ∈ cs, c.ctype ≠ .complete ∧ c.ctype ≠ .error) :
    countTerminal (genLoop gsOk cs).1 = 0 ∧ (genLoop gsOk cs).2 = .normal := by
  induction cs with
  | nil => simp [genLoop, countTerminal]
  | cons c rest ih =>
    obtain ⟨h1, h2⟩ := h c (List.mem_cons_self c rest)
    have ihr := ih (fun x hx => h x (List.mem_cons_of_mem c hx))
    have hstep : genLoop gsOk (c :: rest)
        = (chunkEvents c ++ (genLoop gsOk rest).1, (genLoop gsOk rest).2) := by
      cases hc : c.ctype <;> simp [genLoop, hc] <;> exact absurd hc h1
    rw [hstep]
    simp [countTerminal_append, chunkEvents_no_terminal c h1 h2, ihr.1, ihr.2]

/-- Appending the error chunk that `generate_code` emits on a mid-stream
transport failure appends exactly one terminal error event to the loop
output, and the loop still ends normally. -/
theorem genLoop_with_error_tail (gsOk : Bool) (cs : List Chunk) (m : String)
    (h : ∀ c ∈ cs, c.ctype ≠ .complete) :
    genLoop gsOk (cs ++ [⟨.error, "", m⟩])
      = ((genLoop gsOk cs).1 ++ [.error], .normal) := by
  induction cs with
  | nil => simp [genLoop, chunkEvents]
  | cons c rest ih =>
    have h1 := h c (List.mem_cons_self c rest)
    have ihr := ih (fun x hx => h x (List.mem_cons_of_mem c hx))
    have hstep : genLoop gsOk (c :: (rest ++ [⟨.error, "", m⟩]))
        = (chunkEvents c ++ (genLoop gsOk (rest ++ [⟨.error, "", m⟩])).1,
           (genLoop gsOk (rest ++ [⟨.error, "", m⟩])).2) := by
      cases hc : c.ctype <;> simp [genLoop, hc] <;> exact absurd hc h1
    have hstep2 : genLoop gsOk (c :: rest)
        = (chunkEvents c ++ (genLoop gsOk rest).1, (genLoop gsOk rest).2) := by
      cases hc : c.ctype <;> simp [genLoop, hc] <;> exact absurd hc h1
    rw [List.cons_append, hstep, ihr, hstep2]
    simp

/-- Claim C1 counterexample: an ordinary (non-initial-prompt) generation
invocation on an already-initialized sandbox emits no events at all — zero
terminal events rather than exactly one — because the whole generation loop of
`execute_with_streaming` sits under the initial-prompt test, so the stream
ends silently. -/
theorem streaming_missing_terminal_event :
    execute_with_streaming chatEnv = ([], .normal)
    ∧ countTerminal (execute_with_streaming chatEnv).1 = 0 := by
  constructor <;> rfl

/-- Claim C1 amended: an invocation whose project id resolves and whose setup
succeeds emits, when it is not an initial prompt, no terminal event at all
(the stream ends silently right after setup); on the initial-prompt path with
a successful bootstrap, a provider stream free of terminal chunks and a
mid-stream transport failure, the wrapper converts the failure into a final
error chunk, so the emitted sequence contains exactly one terminal event, the
last event is that error, and the generator returns normally. -/
theorem streaming_terminal_event_cases (e : ExecEnv) (p m : String)
    (hres : resolveProjectId e.parts e.sessionId e.dbHit = .ok p)
    (hp : p ≠ "")
    (hinit : e.initOk = true) (hss : e.setSessionOk = true) :
    (e.isInitial = false →
      countTerminal (execute_with_streaming e).1 = 0
      ∧ (execute_with_streaming e).2 = .normal)
    ∧ (e.isInitial = true → (runBootstrap e.boot).2 = true → e.getHostOk = true →
        (∀ c ∈ e.received, c.ctype ≠ .complete ∧ c.ctype ≠ .error) →
        e.transportFail = some m →
        countTerminal (execute_with_streaming e).1 = 1
        ∧ (execute_with_streaming e).1.getLast? = some Ev.error
        ∧ (execute_with_streaming e).2 = .normal) := by
  constructor
  · intro hinitial
    cases hsb : e.serviceHasSandbox <;>
      simp [execute_with_streaming, hres, hp, hinit, hss, hinitial, hsb,
        countTerminal, isTerminalEv]
  · intro hinitial hboot hhost hchunks htf
    have hnc : ∀ c ∈ e.received, c.ctype ≠ ChunkType.complete :=
      fun c hc => (hchunks c hc).1
    have hgen : genLoop e.getSessionOk (generate_code e.received e.transportFail)
        = ((genLoop e.getSessionOk e.received).1 ++ [.error], .normal) := by
      rw [htf]
      exact genLoop_with_error_tail e.getSessionOk e.received m hnc
    have hzero := (genLoop_no_terminal e.getSessionOk e.received hchunks).1
    cases hsb : e.serviceHasSandbox
    · have hexec : execute_with_streaming e
          = ([Ev.info, Ev.info, Ev.info, Ev.info, Ev.info]
              ++ ((genLoop e.getSessionOk e.received).1 ++ [Ev.error]), Term.normal) := by
        simp [execute_with_streaming, hres, hp, hinit, hss, hinitial, hsb, hboot,
          hhost, hgen]
      refine ⟨?_, ?_, ?_⟩
      · rw [hexec]
        simp only [countTerminal_append, hzero]
        rfl
      · rw [hexec]
        simp only [← List.append_assoc]
        exact List.getLast?_concat _
      · rw [hexec]
    · have hexec : execute_with_streaming e
          = ([Ev.info, Ev.info, Ev.info, Ev.info]
              ++ ((genLoop e.getSessionOk e.received).1 ++ [Ev.error]), Term.normal) := by
        simp [execute_with_streaming, hres, hp, hinit, hss, hinitial, hsb, hboot,
          hhost, hgen]
      refine ⟨?_, ?_, ?_⟩
      · rw [hexec]
        simp only [countTerminal_append, hzero]
        rfl
      · rw [hexec]
        simp only [← List.append_assoc]
        exact List.getLast?_concat _
      · rw [hexec]

/-- Claim C1 witness: the amended statement at concrete environments — the
ordinary chat invocation `chatEnv` emits zero terminal events, and the
initial-prompt invocation `initialEnv`, whose stream delivers two text updates
and then breaks, ends with exactly one terminal error event. -/
theorem streaming_terminal_event_cases_witness :
    (countTerminal (execute_with_streaming chatEnv).1 = 0
      ∧ (execute_with_streaming chatEnv).2 = .normal)
    ∧ (countTerminal (execute_with_streaming initialEnv).1 = 1
      ∧ (execute_with_streaming initialEnv).1.getLast? = some Ev.error
      ∧ (execute_with_streaming initialEnv).2 = .normal) :=
  ⟨(streaming_terminal_event_cases chatEnv "p1" "connection reset" rfl (by decide)
      rfl rfl).1 rfl,
   (streaming_terminal_event_cases initialEnv "p1" "connection reset" rfl (by decide)
      rfl rfl).2 rfl rfl rfl (by decide) rfl⟩

/-- Reachability composes with a step at the front. -/
theorem schedReach_head {a b c : Cfg} (s : SchedStep a b) (r : SchedReach b c) :
    SchedReach a c := by
  induction r with
  | refl => exact SchedReach.tail (SchedReach.refl a) s
  | tail _ s2 ih => exact SchedReach.tail ih s2

/-- Every interleaving of the two pending action lists is executable by the
scheduler, extending any already-executed trace. -/
theorem interleaving_reach (xs ys t : List PAct) (h : Interleaving xs ys t) :
    ∀ tr : List PAct, SchedReach ⟨xs, ys, tr⟩ ⟨[], [], tr ++ t⟩ := by
  induction h with
  | nil =>
    intro tr
    rw [List.append_nil]
    exact SchedReach.refl _
  | left a h ih =>
    intro tr
    rename_i xs2 ys2 zs2
    have step := SchedStep.first a xs2 ys2 tr
    have rest := ih (tr ++ [a])
    rw [List.append_assoc] at rest
    simpa using schedReach_head step rest
  | right a h ih =>
    intro tr
    rename_i xs2 ys2 zs2
    have step := SchedStep.second a xs2 ys2 tr
    have rest := ih (tr ++ [a])
    rw [List.append_assoc] at rest
    simpa using schedReach_head step rest

/-- Claim C3 counterexample: no per-project serialization token exists in the
source, and the cooperative scheduler admits this complete trace in which the
teardown action of a concurrent preview stop runs between the actions of a
preview start on the same project: the trace is admissible yet not serial, so
two concurrent lifecycle operations on one project can interleave. -/
theorem interleaved_trace_admissible :
    AdmissibleTrace [.npmInstall, .sandboxCleanup, .npmRunDev, .getHost3000]
    ∧ ¬ SerialTrace [.npmInstall, .sandboxCleanup, .npmRunDev, .getHost3000] := by
  constructor
  · exact SchedReach.tail
      (SchedReach.tail
        (SchedReach.tail
          (SchedReach.tail (SchedReach.refl _) (SchedStep.first .npmInstall _ _ _))
          (SchedStep.second .sandboxCleanup _ _ _))
        (SchedStep.first .npmRunDev _ _ _))
      (SchedStep.first .getHost3000 _ _ _)
  · unfold SerialTrace startPreviewActs stopPreviewActs
    decide

/-- Claim C3 amended: the code acquires no per-project serialization token, so
lifecycle operations on the same project are not mutually excluded: every
interleaving of the suspension-separated actions of a concurrent preview start
and preview stop is an admissible complete schedule. -/
theorem all_interleavings_admissible (t : List PAct)
    (h : Interleaving startPreviewActs stopPreviewActs t) : AdmissibleTrace t := by
  have hr := interleaving_reach startPreviewActs stopPreviewActs t h []
  simpa [AdmissibleTrace] using hr

/-- Claim C3 witness: the interleaving in which the stop operation's teardown
runs between the second and third actions of the start operation is
admissible. -/
theorem all_interleavings_admissible_witness :
    AdmissibleTrace [.npmInstall, .npmRunDev, .sandboxCleanup, .getHost3000] :=
  all_interleavings_admissible _
    (Interleaving.left .npmInstall
      (Interleaving.left .npmRunDev
        (Interleaving.right .sandboxCleanup
          (Interleaving.left .getHost3000 Interleaving.nil))))

end Claudable
